import Mathlib

/-!
Shallow embedding of the EDDM (Early Drift Detection Method) detector from
frouros/supervised/ddm_based/eddm.py.

Modelling conventions:
* Python floats are modelled as rationals (ℚ); instance counters as ℕ; the
  Python `int` configuration minima as ℤ.
* `float("-inf")` (the initial `max_distance_threshold`) is modelled as
  `none : Option ℚ`; a real threshold value is `some q`.
* `np.sqrt` is an external library function; the update operation is
  parameterised by a function `sq : ℚ → ℚ` standing for it.
* The base class `DDMBasedEstimator` / `DDMBaseConfig`
  (frouros/supervised/ddm_based/base.py) is not part of the given sources;
  the pieces of it the claims need (response shape, buffer semantics, base
  field initialisation, the insufficient-samples fallback) are modelled from
  the specification and marked as such.
* Validation errors raised by Python property setters become constructors of
  explicit error types (`ConfigurationError`, `UpdateError`), matching the
  error taxonomy of the specification.
-/

/-- Error raised by configuration validation (the Python setters raise
`ValueError`; the specification names this kind `ConfigurationError`). -/
inductive ConfigurationError where
  | betaNotGreaterThanZero
  | betaNotLessThanAlpha
  | levelNotGreaterThanZero
  | minNumMisclassifiedInstancesNegative
  | minNumInstancesNegative
deriving DecidableEq

/-- EDDM configuration (eddm.py lines 13-127): `alpha`, `beta`, `level`,
`min_num_misclassified_instances`, plus `min_num_instances` held by the base
configuration class. -/
structure EDDMConfig where
  alpha : ℚ
  beta : ℚ
  level : ℚ
  min_num_misclassified_instances : ℤ
  min_num_instances : ℤ
deriving DecidableEq

/-- Alpha setter (eddm.py lines 53-60): stores the value with no validation
whatsoever.  It is given the `Except` shape of the other setters to record
that the assignment never fails. -/
def EDDMConfig.setAlpha (c : EDDMConfig) (value : ℚ) :
    Except ConfigurationError EDDMConfig :=
  .ok { c with alpha := value }

/-- Construction of an EDDMConfig (eddm.py lines 16-42).  The Python
`__init__` assigns the properties in order; each check below is the check of
the corresponding property setter, in assignment order:
`min_num_instances ≥ 0` (base class setter, modelled from the spec which
requires both minimum-count fields to be nonnegative), then `alpha` (stored
unvalidated), then `beta > 0` and `beta < alpha` (lines 79-82), then
`level > 0` (lines 102-103), then `min_num_misclassified_instances ≥ 0`
(lines 123-126). -/
def mkEDDMConfig (alpha beta level : ℚ)
    (min_num_misclassified_instances min_num_instances : ℤ) :
    Except ConfigurationError EDDMConfig :=
  if min_num_instances < 0 then .error .minNumInstancesNegative
  else if beta ≤ 0 then .error .betaNotGreaterThanZero
  else if alpha ≤ beta then .error .betaNotLessThanAlpha
  else if level ≤ 0 then .error .levelNotGreaterThanZero
  else if min_num_misclassified_instances < 0 then
    .error .minNumMisclassifiedInstancesNegative
  else
    .ok { alpha := alpha, beta := beta, level := level,
          min_num_misclassified_instances := min_num_misclassified_instances,
          min_num_instances := min_num_instances }

/-- Errors the update operation can raise before touching any running state:
sklearn's `NotFittedError` (from `check_is_fitted`, eddm.py line 367) and the
specification's `EmptyBufferError` (popping the empty delayed-predictions
buffer, eddm.py line 368). -/
inductive UpdateError where
  | notFittedError
  | emptyBufferError
deriving DecidableEq

/-- Detector running state (eddm.py lines 146-153 plus the fields held by the
base class: `num_instances`, `ground_truth`, `predictions`,
`delayed_predictions` and the insufficient-samples flag, modelled from the
specification, section 3).  `fitted` models the fitted state of the wrapped
external classifier (spec section 6).  Feature rows are represented by opaque
integer identifiers. -/
structure EDDMState where
  fitted : Bool
  delayed_predictions : List (List ℤ × List ℤ)
  num_instances : ℕ
  num_misclassified_instances : ℕ
  actual_distance_error : ℚ
  last_distance_error : ℚ
  distance_threshold : ℚ
  max_distance_threshold : Option ℚ
  mean_distance_error : ℚ
  old_mean_distance_error : ℚ
  variance_distance_error : ℚ
  std_distance_error : ℚ
  ground_truth : List ℤ
  predictions : List ℤ
  drift_insufficient_samples : Bool
deriving DecidableEq

/-- Initial state (eddm.py lines 146-153; the base-class fields are
initialised to zero/empty values, modelled from the specification, section 3
lifecycle).  `max_distance_threshold` starts at `float("-inf")`, i.e.
`none`; `std_distance_error` is never assigned by `__init__` and is modelled
as starting at 0. -/
def EDDM.initState (fitted : Bool) : EDDMState :=
  { fitted := fitted
    delayed_predictions := []
    num_instances := 0
    num_misclassified_instances := 0
    actual_distance_error := 0
    last_distance_error := 0
    distance_threshold := 0
    max_distance_threshold := none
    mean_distance_error := 0
    old_mean_distance_error := 0
    variance_distance_error := 0
    std_distance_error := 0
    ground_truth := []
    predictions := []
    drift_insufficient_samples := false }

/-- Structured update response.  Modelled from the spec: the base-class
`_get_update_response` is not in the given sources; section 4.3 of the
specification gives the response fields populated by `EDDM._response`
(eddm.py lines 348-357). -/
structure UpdateResponse where
  drift : Bool
  warning : Bool
  distance_threshold : ℚ
  max_distance_threshold : Option ℚ
  mean_distance_error : ℚ
  std_distance_error : ℚ
deriving DecidableEq

/-- Response construction from the current state (eddm.py lines 348-357). -/
def EDDM.response (drift warning : Bool) (s : EDDMState) : UpdateResponse :=
  { drift := drift
    warning := warning
    distance_threshold := s.distance_threshold
    max_distance_threshold := s.max_distance_threshold
    mean_distance_error := s.mean_distance_error
    std_distance_error := s.std_distance_error }

/-- Normal response (eddm.py lines 342-346): drift = false, warning = false. -/
def EDDM.normalResponse (s : EDDMState) : UpdateResponse :=
  EDDM.response false false s

/-- Positions where the true label equals the prediction.  This embeds the
boolean mask of eddm.py line 372: `~(y != y_pred)` elementwise, i.e. the
positions where `y == y_pred` (the double negation makes the mask select the
correctly classified positions, not the misclassified ones). -/
def EDDM.eqIdxs (y y_pred : List ℤ) : List ℕ :=
  (((y.zip y_pred).enum.filter fun q => q.2.1 == q.2.2).map fun q => q.1)

/-- The index row selected on eddm.py line 372:
`np.argwhere(~(y != y_pred))[0]` keeps only the first row of the argwhere
result, so the selection is the first position where `y == y_pred`; `none`
models the `IndexError` raised when that mask has no true entry. -/
def EDDM.selectedIdx (y y_pred : List ℤ) : Option ℕ :=
  (EDDM.eqIdxs y y_pred).head?

/-- Misclassified positions as the specification words them (section 4.3
step 2): the positions where `prediction ≠ truth`.  This definition follows
the spec, not the source, and exists to be compared with
`EDDM.selectedIdx`. -/
def specMisclassifiedPositions (y y_pred : List ℤ) : List ℕ :=
  (((y.zip y_pred).enum.filter fun q => q.2.1 != q.2.2).map fun q => q.1)

/-- Distance-shift and Welford statistics update, eddm.py lines 387-403.
The caller has already advanced `num_misclassified_instances`.  Sets
`last_distance_error := actual_distance_error`,
`actual_distance_error := num_instances - 1`, then performs the incremental
mean/variance update and recomputes `std_distance_error` via the external
square root `sq` (guarded to 0 when no misclassification has been counted,
exactly as on lines 399-403). -/
def EDDM.statisticsUpdate (sq : ℚ → ℚ) (s : EDDMState) : EDDMState :=
  let last := s.actual_distance_error
  let actual : ℚ := (s.num_instances : ℚ) - 1
  let distance := actual - last
  let nq : ℚ := (s.num_misclassified_instances : ℚ)
  let oldMean := s.mean_distance_error
  let newMean := oldMean + (distance - oldMean) / nq
  let newVar := s.variance_distance_error + (distance - newMean) * (distance - oldMean)
  let newStd := if 0 < s.num_misclassified_instances then sq (newVar / nq) else 0
  { s with last_distance_error := last
           actual_distance_error := actual
           old_mean_distance_error := oldMean
           mean_distance_error := newMean
           variance_distance_error := newVar
           std_distance_error := newStd }

/-- Three-zone decision, eddm.py lines 441-459 (`_check_case`): returns the
(drift, warning) pair.  The drift/warning/normal handling hooks live in the
missing base class; modelled from the spec they prepare retraining context
and do not touch the running statistics, so only the flags are computed
here. -/
def EDDM.check_case (cfg : EDDMConfig) (p : ℚ) : Bool × Bool :=
  if p < cfg.beta then (true, true)
  else if p < cfg.alpha then (false, true)
  else (false, false)

/-- Threshold computation and zone decision, eddm.py lines 425-439: set
`distance_threshold := mean + level * std`; if it strictly exceeds
`max_distance_threshold` (always the case against the initial `-inf`),
record the new maximum and return the normal response; otherwise form the
ratio `p = distance_threshold / max_distance_threshold` and apply
`check_case`. -/
def EDDM.thresholdStep (cfg : EDDMConfig) (s : EDDMState) :
    UpdateResponse × EDDMState :=
  let s1 : EDDMState :=
    { s with distance_threshold :=
        s.mean_distance_error + cfg.level * s.std_distance_error }
  match s1.max_distance_threshold with
  | none =>
      let s2 : EDDMState :=
        { s1 with max_distance_threshold := some s1.distance_threshold }
      (EDDM.normalResponse s2, s2)
  | some m =>
      if m < s1.distance_threshold then
        let s2 : EDDMState :=
          { s1 with max_distance_threshold := some s1.distance_threshold }
        (EDDM.normalResponse s2, s2)
      else
        let p := s1.distance_threshold / m
        let dw := EDDM.check_case cfg p
        (EDDM.response dw.1 dw.2 s1, s1)

/-- The update operation, eddm.py lines 359-439, as a state transition.
`sq` stands for `np.sqrt`.  `fallbackCompleted` models the result of
`_check_drift_insufficient_samples` (missing base class; modelled from the
spec, section 4.4, whose exact policy the spec leaves open): when the
insufficient-samples flag is set and the check reports completion, the call
returns drift+warning immediately.  Steps, in source order: fitted check;
pop of the oldest buffered batch (failing on the empty buffer); advance of
`num_instances` by the batch size; selection of `misclassified_idxs` via
`np.argwhere(~(y != y_pred))[0]` with the `IndexError` short-circuit;
restriction of labels/predictions to the selected positions and advance of
`num_misclassified_instances` by their count; statistics update; the
minimum-count and fallback checks; history extension; threshold step. -/
def EDDM.update (cfg : EDDMConfig) (sq : ℚ → ℚ) (fallbackCompleted : Bool)
    (y : List ℤ) (s : EDDMState) :
    Except UpdateError (UpdateResponse × EDDMState) :=
  if s.fitted = false then .error .notFittedError
  else
    match s.delayed_predictions with
    | [] => .error .emptyBufferError
    | (_X, y_pred) :: rest =>
      let s1 : EDDMState :=
        { s with delayed_predictions := rest
                 num_instances := s.num_instances + y_pred.length }
      match EDDM.selectedIdx y y_pred with
      | none => .ok (EDDM.normalResponse s1, s1)
      | some i =>
        let misclassified_idxs := [i]
        let yr := misclassified_idxs.map fun j => y.getD j 0
        let ypr := misclassified_idxs.map fun j => y_pred.getD j 0
        let s2 : EDDMState :=
          { s1 with num_misclassified_instances :=
              s1.num_misclassified_instances + misclassified_idxs.length }
        let s4 := EDDM.statisticsUpdate sq s2
        if (s4.num_instances : ℤ) < cfg.min_num_instances then
          .ok (EDDM.normalResponse s4, s4)
        else if s4.drift_insufficient_samples && fallbackCompleted then
          .ok (EDDM.response true true s4, s4)
        else
          let s5 : EDDMState :=
            { s4 with ground_truth := s4.ground_truth ++ yr
                      predictions := s4.predictions ++ ypr }
          if (s5.num_misclassified_instances : ℤ) <
              cfg.min_num_misclassified_instances then
            .ok (EDDM.normalResponse s5, s5)
          else
            .ok (EDDM.thresholdStep cfg s5)

/-- An external interaction with the detector: either a push of a
(features, predictions) batch onto the delayed-predictions buffer
(`registerPrediction` of spec section 6) or an update call with the true
labels for the oldest batch. -/
inductive EDDMEvent where
  | push : List ℤ → List ℤ → EDDMEvent
  | update : List ℤ → Bool → EDDMEvent

/-- One event applied to the state.  A push appends at the buffer tail
(modelled from the spec, section 4.2); an update call that raises leaves the
state unchanged (both errors are raised before any mutation). -/
def EDDM.stepEvent (cfg : EDDMConfig) (sq : ℚ → ℚ) (s : EDDMState) :
    EDDMEvent → EDDMState
  | .push X y_pred =>
      { s with delayed_predictions := s.delayed_predictions ++ [(X, y_pred)] }
  | .update y fb =>
      match EDDM.update cfg sq fb y s with
      | .ok q => q.2
      | .error _ => s

/-- A sequence of events applied in order. -/
def EDDM.runEvents (cfg : EDDMConfig) (sq : ℚ → ℚ) (s : EDDMState)
    (evs : List EDDMEvent) : EDDMState :=
  evs.foldl (EDDM.stepEvent cfg sq) s

/-- Ordering on `max_distance_threshold` values, where `none` stands for the
initial `float("-inf")`. -/
def EDDM.maxLE : Option ℚ → Option ℚ → Prop
  | none, _ => True
  | some _, none => False
  | some x, some z => x ≤ z

/-- The source-default configuration (eddm.py lines 16-23): alpha 0.95,
beta 0.9, level 2, both minima 30. -/
def cfgDefault : EDDMConfig :=
  { alpha := 95 / 100, beta := 9 / 10, level := 2,
    min_num_misclassified_instances := 30, min_num_instances := 30 }

/-- A fresh fitted detector with one three-instance batch, predictions all
0, waiting in the buffer. -/
def stateWithBatch1 : EDDMState :=
  { EDDM.initState true with delayed_predictions := [([10, 11, 12], [0, 0, 0])] }

/-- A state poised at the threshold step with a recorded maximum of 1, mean
2 and standard deviation 1. -/
def stateAtThreshold : EDDMState :=
  { EDDM.initState true with mean_distance_error := 2,
                             std_distance_error := 1,
                             max_distance_threshold := some 1 }

theorem EDDM.maxLE_refl (o : Option ℚ) : EDDM.maxLE o o := by
  cases o with
  | none => trivial
  | some x => exact le_refl x

theorem EDDM.maxLE_trans (a b c : Option ℚ) :
    EDDM.maxLE a b → EDDM.maxLE b c → EDDM.maxLE a c := by
  cases a with
  | none => intro _ _; trivial
  | some x =>
    cases b with
    | none => intro h1 _; exact False.elim h1
    | some z =>
      cases c with
      | none => intro _ h2; exact False.elim h2
      | some w => intro h1 h2; exact le_trans h1 h2

theorem EDDM.statistics_update_max (sq : ℚ → ℚ) (s : EDDMState) :
    (EDDM.statisticsUpdate sq s).max_distance_threshold
      = s.max_distance_threshold := rfl

theorem welford_increment_nonneg (d om nq : ℚ) (h1 : 1 ≤ nq) :
    0 ≤ (d - (om + (d - om) / nq)) * (d - om) := by
  have h0 : (0 : ℚ) < nq := lt_of_lt_of_le one_pos h1
  have hne : nq ≠ 0 := ne_of_gt h0
  have key : (d - (om + (d - om) / nq)) * (d - om)
      = (d - om) ^ 2 * ((nq - 1) / nq) := by
    field_simp
    ring
  rw [key]
  exact mul_nonneg (sq_nonneg _) (div_nonneg (by linarith) (by linarith))

theorem EDDM.statistics_update_var_nonneg (sq : ℚ → ℚ) (s : EDDMState)
    (hn : 0 < s.num_misclassified_instances)
    (hvar : 0 ≤ s.variance_distance_error) :
    0 ≤ (EDDM.statisticsUpdate sq s).variance_distance_error := by
  have hn1 : (1 : ℚ) ≤ (s.num_misclassified_instances : ℚ) := by exact_mod_cast hn
  have hinc := welford_increment_nonneg
      ((s.num_instances : ℚ) - 1 - s.actual_distance_error)
      s.mean_distance_error (s.num_misclassified_instances : ℚ) hn1
  simp only [EDDM.statisticsUpdate]
  linarith

theorem EDDM.statistics_update_std_nonneg (sq : ℚ → ℚ) (s : EDDMState)
    (hsq : ∀ x : ℚ, 0 ≤ x → 0 ≤ sq x)
    (hn : 0 < s.num_misclassified_instances)
    (hvar : 0 ≤ s.variance_distance_error) :
    0 ≤ (EDDM.statisticsUpdate sq s).std_distance_error := by
  have hn0 : (0 : ℚ) < (s.num_misclassified_instances : ℚ) := by exact_mod_cast hn
  have hv := EDDM.statistics_update_var_nonneg sq s hn hvar
  simp only [EDDM.statisticsUpdate] at hv ⊢
  rw [if_pos hn]
  exact hsq _ (div_nonneg hv (le_of_lt hn0))

theorem EDDM.statistics_update_nonneg (sq : ℚ → ℚ) (s : EDDMState)
    (hsq : ∀ x : ℚ, 0 ≤ x → 0 ≤ sq x)
    (hn : 0 < s.num_misclassified_instances)
    (hvar : 0 ≤ s.variance_distance_error) :
    0 ≤ (EDDM.statisticsUpdate sq s).variance_distance_error
    ∧ 0 ≤ (EDDM.statisticsUpdate sq s).std_distance_error :=
  ⟨EDDM.statistics_update_var_nonneg sq s hn hvar,
   EDDM.statistics_update_std_nonneg sq s hsq hn hvar⟩

theorem EDDM.threshold_step_maxLE (cfg : EDDMConfig) (s : EDDMState) :
    EDDM.maxLE s.max_distance_threshold
      (EDDM.thresholdStep cfg s).2.max_distance_threshold := by
  rcases hm : s.max_distance_threshold with _ | m
  · simp [EDDM.thresholdStep, hm, EDDM.maxLE]
  · by_cases hlt : m < s.mean_distance_error + cfg.level * s.std_distance_error
    · simp only [EDDM.thresholdStep, hm]
      rw [if_pos hlt]
      exact le_of_lt hlt
    · simp only [EDDM.thresholdStep, hm]
      rw [if_neg hlt]
      exact le_refl m

theorem EDDM.threshold_step_stats (cfg : EDDMConfig) (s : EDDMState) :
    (EDDM.thresholdStep cfg s).2.variance_distance_error
        = s.variance_distance_error
    ∧ (EDDM.thresholdStep cfg s).2.std_distance_error
        = s.std_distance_error := by
  rcases hm : s.max_distance_threshold with _ | m
  · simp [EDDM.thresholdStep, hm]
  · by_cases hlt : m < s.mean_distance_error + cfg.level * s.std_distance_error <;>
      simp [EDDM.thresholdStep, hm, hlt]

theorem EDDM.threshold_step_maxLE_of (cfg : EDDMConfig) (s0 s5 : EDDMState)
    (hmax : s5.max_distance_threshold = s0.max_distance_threshold) :
    EDDM.maxLE s0.max_distance_threshold
      (EDDM.thresholdStep cfg s5).2.max_distance_threshold := by
  rw [← hmax]
  exact EDDM.threshold_step_maxLE cfg s5

theorem EDDM.update_ok_maxLE (cfg : EDDMConfig) (sq : ℚ → ℚ) (fb : Bool)
    (y : List ℤ) (s : EDDMState) :
    ∀ q, EDDM.update cfg sq fb y s = Except.ok q →
      EDDM.maxLE s.max_distance_threshold q.2.max_distance_threshold := by
  intro q h
  simp only [EDDM.update] at h
  split at h
  · exact Except.noConfusion h
  split at h
  · exact Except.noConfusion h
  split at h
  · injection h with h2
    subst h2
    exact EDDM.maxLE_refl _
  split at h
  · injection h with h2
    subst h2
    exact EDDM.maxLE_refl _
  split at h
  · injection h with h2
    subst h2
    exact EDDM.maxLE_refl _
  split at h
  · injection h with h2
    subst h2
    exact EDDM.maxLE_refl _
  · injection h with h2
    subst h2
    exact EDDM.threshold_step_maxLE_of cfg s _ rfl

theorem EDDM.update_ok_stats_nonneg (cfg : EDDMConfig) (sq : ℚ → ℚ) (fb : Bool)
    (y : List ℤ) (s : EDDMState)
    (hsq : ∀ x : ℚ, 0 ≤ x → 0 ≤ sq x)
    (hvar : 0 ≤ s.variance_distance_error)
    (hstd : 0 ≤ s.std_distance_error) :
    ∀ q, EDDM.update cfg sq fb y s = Except.ok q →
      0 ≤ q.2.variance_distance_error ∧ 0 ≤ q.2.std_distance_error := by
  intro q h
  simp only [EDDM.update] at h
  split at h
  · exact Except.noConfusion h
  split at h
  · exact Except.noConfusion h
  split at h
  · injection h with h2
    subst h2
    exact ⟨hvar, hstd⟩
  split at h
  · injection h with h2
    subst h2
    exact EDDM.statistics_update_nonneg sq _ hsq (Nat.succ_pos _) hvar
  split at h
  · injection h with h2
    subst h2
    exact EDDM.statistics_update_nonneg sq _ hsq (Nat.succ_pos _) hvar
  split at h
  · injection h with h2
    subst h2
    exact EDDM.statistics_update_nonneg sq _ hsq (Nat.succ_pos _) hvar
  · injection h with h2
    subst h2
    constructor
    · rw [(EDDM.threshold_step_stats cfg _).1]
      exact EDDM.statistics_update_var_nonneg sq _ (Nat.succ_pos _) hvar
    · rw [(EDDM.threshold_step_stats cfg _).2]
      exact EDDM.statistics_update_std_nonneg sq _ hsq (Nat.succ_pos _) hvar

theorem EDDM.step_event_maxLE (cfg : EDDMConfig) (sq : ℚ → ℚ) (s : EDDMState)
    (e : EDDMEvent) :
    EDDM.maxLE s.max_distance_threshold
      (EDDM.stepEvent cfg sq s e).max_distance_threshold := by
  cases e with
  | push X yp => exact EDDM.maxLE_refl _
  | update y fb =>
    simp only [EDDM.stepEvent]
    cases hu : EDDM.update cfg sq fb y s with
    | ok q => exact EDDM.update_ok_maxLE cfg sq fb y s q hu
    | error err => exact EDDM.maxLE_refl _

theorem EDDM.step_event_stats_nonneg (cfg : EDDMConfig) (sq : ℚ → ℚ)
    (s : EDDMState) (e : EDDMEvent)
    (hsq : ∀ x : ℚ, 0 ≤ x → 0 ≤ sq x)
    (hvar : 0 ≤ s.variance_distance_error)
    (hstd : 0 ≤ s.std_distance_error) :
    0 ≤ (EDDM.stepEvent cfg sq s e).variance_distance_error
    ∧ 0 ≤ (EDDM.stepEvent cfg sq s e).std_distance_error := by
  cases e with
  | push X yp => exact ⟨hvar, hstd⟩
  | update y fb =>
    simp only [EDDM.stepEvent]
    cases hu : EDDM.update cfg sq fb y s with
    | ok q => exact EDDM.update_ok_stats_nonneg cfg sq fb y s hsq hvar hstd q hu
    | error err => exact ⟨hvar, hstd⟩

/-- C1: the claim states that an update on a batch with at least one
misclassified instance selects exactly the misclassified positions and
advances `num_misclassified_instances` by their count.  On the batch
y = [0, 1, 1] against y_pred = [0, 0, 0] the misclassified positions are
[1, 2], yet the code of eddm.py line 372 selects position 0 (the first
correctly classified one) and advances `num_misclassified_instances` by 1,
not 2. -/
theorem EDDM.selection_uses_first_equal_position :
    EDDM.selectedIdx [0, 1, 1] [0, 0, 0] = some 0
    ∧ specMisclassifiedPositions [0, 1, 1] [0, 0, 0] = [1, 2]
    ∧ (EDDM.stepEvent cfgDefault (fun _ => 0) stateWithBatch1
        (EDDMEvent.update [0, 1, 1] false)).num_misclassified_instances = 1 :=
  ⟨rfl, rfl, rfl⟩

/-- C2: the claim states that an update on a batch with zero misclassified
instances returns the normal response immediately and leaves the running
statistics unchanged.  On the all-correct batch y = [0, 0, 0] against
y_pred = [0, 0, 0] the code does not short-circuit (the short-circuit of
eddm.py lines 371-379 fires only when the equality mask is empty, i.e. when
every instance is misclassified): `num_misclassified_instances` rises from
0 to 1 and `mean_distance_error` changes from 0 to 2. -/
theorem EDDM.zero_misclassified_batch_mutates_statistics :
    specMisclassifiedPositions [0, 0, 0] [0, 0, 0] = []
    ∧ stateWithBatch1.mean_distance_error = 0
    ∧ (EDDM.stepEvent cfgDefault (fun _ => 0) stateWithBatch1
        (EDDMEvent.update [0, 0, 0] false)).mean_distance_error = 2
    ∧ (EDDM.stepEvent cfgDefault (fun _ => 0) stateWithBatch1
        (EDDMEvent.update [0, 0, 0] false)).num_misclassified_instances = 1 := by
  refine ⟨rfl, rfl, ?_, rfl⟩
  norm_num [EDDM.stepEvent, EDDM.update, EDDM.selectedIdx, EDDM.eqIdxs,
    EDDM.statisticsUpdate, EDDM.normalResponse, EDDM.response,
    cfgDefault, stateWithBatch1, EDDM.initState, List.enum]

/-- C3: every successfully constructed configuration satisfies
0 < beta < alpha and level > 0, and every attempted construction violating
one of these rules fails with a ConfigurationError instead of producing a
configuration object. -/
theorem EDDMConfig.construction_validates (alpha beta level : ℚ) (m n : ℤ) :
    (∀ c, mkEDDMConfig alpha beta level m n = Except.ok c →
        0 < c.beta ∧ c.beta < c.alpha ∧ 0 < c.level)
    ∧ (¬ (0 < beta ∧ beta < alpha ∧ 0 < level) →
        ∃ e, mkEDDMConfig alpha beta level m n = Except.error e) := by
  constructor
  · intro c hc
    unfold mkEDDMConfig at hc
    split_ifs at hc with h1 h2 h3 h4 h5
    injection hc with h6
    subst h6
    exact ⟨not_le.mp h2, not_le.mp h3, not_le.mp h4⟩
  · intro hviol
    unfold mkEDDMConfig
    split_ifs with h1 h2 h3 h4 h5
    · exact ⟨_, rfl⟩
    · exact ⟨_, rfl⟩
    · exact ⟨_, rfl⟩
    · exact ⟨_, rfl⟩
    · exact ⟨_, rfl⟩
    · exact absurd ⟨not_le.mp h2, not_le.mp h3, not_le.mp h4⟩ hviol

/-- C3 witness: the Scenario B construction with beta = 9/10 and
alpha = 1/2 (beta ≥ alpha) fails. -/
theorem EDDMConfig.construction_validates_witness :
    ∃ e, mkEDDMConfig (1 / 2) (9 / 10) 2 30 30 = Except.error e :=
  (EDDMConfig.construction_validates (1 / 2) (9 / 10) 2 30 30).2 (by norm_num)

/-- C4: with a validated configuration (beta < alpha), the zone decision on
the ratio p returns drift and warning when p < beta, warning only when
beta ≤ p < alpha, and neither when p ≥ alpha. -/
theorem EDDM.check_case_zones (cfg : EDDMConfig) (p : ℚ)
    (hba : cfg.beta < cfg.alpha) :
    (p < cfg.beta → EDDM.check_case cfg p = (true, true))
    ∧ (cfg.beta ≤ p → p < cfg.alpha → EDDM.check_case cfg p = (false, true))
    ∧ (cfg.alpha ≤ p → EDDM.check_case cfg p = (false, false)) := by
  refine ⟨?_, ?_, ?_⟩
  · intro h
    unfold EDDM.check_case
    rw [if_pos h]
  · intro h1 h2
    unfold EDDM.check_case
    rw [if_neg (not_lt.mpr h1), if_pos h2]
  · intro h
    unfold EDDM.check_case
    rw [if_neg (not_lt.mpr (le_of_lt (lt_of_lt_of_le hba h))),
        if_neg (not_lt.mpr h)]

/-- C4 witness: with the default configuration (alpha 0.95, beta 0.9) the
three zones are hit at p = 1/2, p = 0.92 and p = 1. -/
theorem EDDM.check_case_zones_witness :
    EDDM.check_case cfgDefault (1 / 2) = (true, true)
    ∧ EDDM.check_case cfgDefault (92 / 100) = (false, true)
    ∧ EDDM.check_case cfgDefault 1 = (false, false) := by
  have hba : cfgDefault.beta < cfgDefault.alpha := by norm_num [cfgDefault]
  exact ⟨(EDDM.check_case_zones cfgDefault (1 / 2) hba).1
            (by norm_num [cfgDefault]),
         (EDDM.check_case_zones cfgDefault (92 / 100) hba).2.1
            (by norm_num [cfgDefault]) (by norm_num [cfgDefault]),
         (EDDM.check_case_zones cfgDefault 1 hba).2.2
            (by norm_num [cfgDefault])⟩

/-- C5: the threshold step always sets `distance_threshold` to
mean + level * std, and whenever that value strictly exceeds the current
`max_distance_threshold` (including the initial -inf), the maximum is
replaced by it and the call returns the normal response (drift = false,
warning = false) without evaluating the zone ratio. -/
theorem EDDM.threshold_step_spec (cfg : EDDMConfig) (s : EDDMState) :
    (EDDM.thresholdStep cfg s).2.distance_threshold
        = s.mean_distance_error + cfg.level * s.std_distance_error
    ∧ (s.max_distance_threshold = none →
        (EDDM.thresholdStep cfg s).1.drift = false
        ∧ (EDDM.thresholdStep cfg s).1.warning = false
        ∧ (EDDM.thresholdStep cfg s).2.max_distance_threshold
            = some (s.mean_distance_error + cfg.level * s.std_distance_error))
    ∧ (∀ m, s.max_distance_threshold = some m →
        m < s.mean_distance_error + cfg.level * s.std_distance_error →
        (EDDM.thresholdStep cfg s).1.drift = false
        ∧ (EDDM.thresholdStep cfg s).1.warning = false
        ∧ (EDDM.thresholdStep cfg s).2.max_distance_threshold
            = some (s.mean_distance_error + cfg.level * s.std_distance_error)) := by
  refine ⟨?_, ?_, ?_⟩
  · rcases hm : s.max_distance_threshold with _ | m
    · simp [EDDM.thresholdStep, hm]
    · by_cases hlt : m < s.mean_distance_error + cfg.level * s.std_distance_error <;>
        simp [EDDM.thresholdStep, hm, hlt]
  · intro hm
    simp [EDDM.thresholdStep, hm, EDDM.normalResponse, EDDM.response]
  · intro m hm hlt
    simp [EDDM.thresholdStep, hm, hlt, EDDM.normalResponse, EDDM.response]

/-- C5 witness: from a state with maximum 1, mean 2 and std 1 under the
default configuration (level 2), the new threshold 4 exceeds the maximum,
the maximum becomes 4 and the response is normal. -/
theorem EDDM.threshold_step_spec_witness :
    (EDDM.thresholdStep cfgDefault stateAtThreshold).1.drift = false
    ∧ (EDDM.thresholdStep cfgDefault stateAtThreshold).1.warning = false
    ∧ (EDDM.thresholdStep cfgDefault stateAtThreshold).2.max_distance_threshold
        = some 4 := by
  have h := (EDDM.threshold_step_spec cfgDefault stateAtThreshold).2.2 1 rfl
      (by norm_num [cfgDefault, stateAtThreshold, EDDM.initState])
  refine ⟨h.1, h.2.1, h.2.2.trans ?_⟩
  norm_num [cfgDefault, stateAtThreshold, EDDM.initState]

/-- C6: over any sequence of pushes and update calls with no reset,
`max_distance_threshold` never decreases (with -inf below every value). -/
theorem EDDM.max_distance_threshold_monotone (cfg : EDDMConfig) (sq : ℚ → ℚ)
    (s : EDDMState) (evs : List EDDMEvent) :
    EDDM.maxLE s.max_distance_threshold
      (EDDM.runEvents cfg sq s evs).max_distance_threshold := by
  induction evs generalizing s with
  | nil => exact EDDM.maxLE_refl _
  | cons e t ih =>
      exact EDDM.maxLE_trans _ _ _ (EDDM.step_event_maxLE cfg sq s e) (ih _)

/-- C7: starting from construction (or a reset, which restores the same
state), after any sequence of pushes and update calls the stored
`std_distance_error` is nonnegative, provided the external square root
returns nonnegative values on nonnegative inputs (as numpy's does). -/
theorem EDDM.std_distance_error_nonneg (cfg : EDDMConfig) (sq : ℚ → ℚ)
    (hsq : ∀ x : ℚ, 0 ≤ x → 0 ≤ sq x) (fitted : Bool) (evs : List EDDMEvent) :
    0 ≤ (EDDM.runEvents cfg sq (EDDM.initState fitted) evs).std_distance_error := by
  suffices hgen : ∀ (l : List EDDMEvent) (s : EDDMState),
      0 ≤ s.variance_distance_error → 0 ≤ s.std_distance_error →
      0 ≤ (EDDM.runEvents cfg sq s l).variance_distance_error
      ∧ 0 ≤ (EDDM.runEvents cfg sq s l).std_distance_error by
    exact (hgen evs (EDDM.initState fitted) (le_refl 0) (le_refl 0)).2
  intro l
  induction l with
  | nil => exact fun s hv hs => ⟨hv, hs⟩
  | cons e t ih =>
      intro s hv hs
      have hstep := EDDM.step_event_stats_nonneg cfg sq s e hsq hv hs
      exact ih _ hstep.1 hstep.2

/-- C7 witness: a concrete run (one push, one update) from a fresh fitted
detector, with the square root instantiated by the zero function. -/
theorem EDDM.std_distance_error_nonneg_witness :
    0 ≤ (EDDM.runEvents cfgDefault (fun _ => 0) (EDDM.initState true)
        [EDDMEvent.push [5] [0], EDDMEvent.update [1] false]).std_distance_error :=
  EDDM.std_distance_error_nonneg cfgDefault (fun _ => 0) (fun _ _ => le_refl 0)
    true [EDDMEvent.push [5] [0], EDDMEvent.update [1] false]

/-- C8: calling update on a detector whose classifier is not fitted fails
with NotFittedError and leaves the whole running state unchanged. -/
theorem EDDM.update_not_fitted (cfg : EDDMConfig) (sq : ℚ → ℚ) (fb : Bool)
    (y : List ℤ) (s : EDDMState) (hf : s.fitted = false) :
    EDDM.update cfg sq fb y s = Except.error UpdateError.notFittedError
    ∧ EDDM.stepEvent cfg sq s (EDDMEvent.update y fb) = s := by
  have h1 : EDDM.update cfg sq fb y s
      = Except.error UpdateError.notFittedError := by
    simp [EDDM.update, hf]
  refine ⟨h1, ?_⟩
  simp [EDDM.stepEvent, h1]

/-- C8 witness: a fresh unfitted detector. -/
theorem EDDM.update_not_fitted_witness :
    EDDM.update cfgDefault (fun _ => 0) false [0] (EDDM.initState false)
      = Except.error UpdateError.notFittedError
    ∧ EDDM.stepEvent cfgDefault (fun _ => 0) (EDDM.initState false)
        (EDDMEvent.update [0] false) = EDDM.initState false :=
  EDDM.update_not_fitted cfgDefault (fun _ => 0) false [0]
    (EDDM.initState false) rfl

/-- C9: calling update on a fitted detector whose delayed-predictions
buffer is empty fails with EmptyBufferError. -/
theorem EDDM.update_empty_buffer (cfg : EDDMConfig) (sq : ℚ → ℚ) (fb : Bool)
    (y : List ℤ) (s : EDDMState) (hf : s.fitted = true)
    (hb : s.delayed_predictions = []) :
    EDDM.update cfg sq fb y s = Except.error UpdateError.emptyBufferError := by
  simp [EDDM.update, hf, hb]

/-- C9 witness: a fresh fitted detector with nothing pushed. -/
theorem EDDM.update_empty_buffer_witness :
    EDDM.update cfgDefault (fun _ => 0) false [0] (EDDM.initState true)
      = Except.error UpdateError.emptyBufferError :=
  EDDM.update_empty_buffer cfgDefault (fun _ => 0) false [0]
    (EDDM.initState true) rfl rfl

/-- C10: the alpha setter performs no validation: every assignment succeeds
and stores exactly the given value, so mutating alpha on a validly
constructed configuration (default alpha 0.95, beta 0.9) to 1/2 yields an
observable configuration with beta ≥ alpha. -/
theorem EDDMConfig.alpha_setter_unvalidated :
    (∀ (c : EDDMConfig) (v : ℚ),
        EDDMConfig.setAlpha c v = Except.ok { c with alpha := v })
    ∧ mkEDDMConfig (95 / 100) (9 / 10) 2 30 30 = Except.ok cfgDefault
    ∧ EDDMConfig.setAlpha cfgDefault (1 / 2)
        = Except.ok { cfgDefault with alpha := 1 / 2 }
    ∧ ({ cfgDefault with alpha := 1 / 2 } : EDDMConfig).alpha
        ≤ ({ cfgDefault with alpha := 1 / 2 } : EDDMConfig).beta := by
  refine ⟨fun c v => rfl, ?_, rfl, ?_⟩
  · norm_num [mkEDDMConfig, cfgDefault]
  · norm_num [cfgDefault]
